import Mathlib

/-
Shallow embedding of the warehouse pallet-tracking backend (server.js).

The four SQL tables (PalletsEntrada, TareasDescuento, PalletsDescontados,
Movimientos) are modelled as lists of rows; IDENTITY columns are modelled by
explicit counters in the DB state.  Each HTTP endpoint's transaction body is
translated into a pure function of type DB -> args -> DB x Except ApiErr Nat:
a failing transaction rolls back, so the error branches return the input
state unchanged.  Timestamp columns (FechaHora*) are not modelled: no claim
under verification mentions them.  String validations performed by the HTTP
layer before the transaction (non-empty client, user, aisle, priority) are
recorded as hypotheses on the step relation where they matter.
-/

set_option autoImplicit false

namespace Recepcion

/-- Lifecycle state of a discount task (column Estado of TareasDescuento). -/
inductive Estado
  | Pendiente
  | Completada
  | Cancelada
deriving DecidableEq, Repr

/-- Cooperative-lock sub-state (column EstadoProceso of TareasDescuento).
The schema default is Libre and the code only ever writes Libre or
EnProceso. -/
inductive EstadoProceso
  | Libre
  | EnProceso
deriving DecidableEq, Repr

/-- A row of PalletsEntrada: a pallet intake lot. -/
structure PalletEntrada where
  id : Nat
  cliente : String
  cantidad : Int
deriving DecidableEq, Repr

/-- A row of TareasDescuento: a discount task against a lot. -/
structure TareaDescuento where
  id : Nat
  palletEntradaID : Nat
  cliente : String
  cantidadSolicitada : Int
  pasillo : String
  prioridad : String
  estado : Estado
  estadoProceso : EstadoProceso
  usuarioProcesando : Option String
deriving DecidableEq, Repr

/-- A row of PalletsDescontados: an applied deduction.  tareaDescuentoID is
NULL for a direct-against-lot deduction; palletEntradaID is set only by the
direct-discount path. -/
structure PalletDescontado where
  id : Nat
  tareaDescuentoID : Option Nat
  cliente : String
  cantidadDescontada : Int
  palletEntradaID : Option Nat
deriving DecidableEq, Repr

/-- Movement kinds written by server.js (column TipoMovimiento). -/
inductive TipoMovimiento
  | INGRESO
  | CREACION_TAREA
  | TOMA_POSESION
  | DESBLOQUEO_TAREA
  | DESCUENTO
  | DESCUENTO_DIRECTO
deriving DecidableEq, Repr

/-- A row of Movimientos: an audit-log entry. -/
structure Movimiento where
  tipoMovimiento : TipoMovimiento
  palletEntradaID : Option Nat
  tareaDescuentoID : Option Nat
  palletsDescontadosID : Option Nat
  cliente : String
  cantidad : Int
  pasillo : Option String
  usuario : String
deriving DecidableEq, Repr

/-- The whole database state.  The next* counters model the IDENTITY(1,1)
primary keys. -/
structure DB where
  palletsEntrada : List PalletEntrada
  tareasDescuento : List TareaDescuento
  palletsDescontados : List PalletDescontado
  movimientos : List Movimiento
  nextPalletEntradaId : Nat
  nextTareaId : Nat
  nextDescontadoId : Nat
deriving DecidableEq, Repr

/-- Empty database, as created by the startup DDL. -/
def initDB : DB :=
  { palletsEntrada := []
    tareasDescuento := []
    palletsDescontados := []
    movimientos := []
    nextPalletEntradaId := 1
    nextTareaId := 1
    nextDescontadoId := 1 }

/-- Business errors surfaced by the endpoints (4xx responses). -/
inductive ApiErr
  | notFound
  | insufficientAvailability
  | invalidQuantity
  | conflict
  | forbidden
  | invalidState
deriving DecidableEq, Repr

/-- POST /api/pendientes, transaction body (server.js:253-297): insert the
lot and append an INGRESO movement. -/
def recordIntake (db : DB) (cliente : String) (cantidad : Int)
    (usuarioIngreso : String) : DB × Nat :=
  let pid := db.nextPalletEntradaId
  let pe : PalletEntrada := { id := pid, cliente := cliente, cantidad := cantidad }
  let mov : Movimiento :=
    { tipoMovimiento := TipoMovimiento.INGRESO
      palletEntradaID := some pid
      tareaDescuentoID := none
      palletsDescontadosID := none
      cliente := cliente
      cantidad := cantidad
      pasillo := none
      usuario := usuarioIngreso }
  ({ db with
      palletsEntrada := db.palletsEntrada ++ [pe]
      movimientos := db.movimientos ++ [mov]
      nextPalletEntradaId := pid + 1 }, pid)

/-- SUM(TD.CantidadSolicitada) over TareasDescuento joined on
PE.ID = TD.PalletEntradaID, as in the availability query of
POST /api/tareas-descuento (server.js:329-337): note there is no filter on
the task state. -/
def cantidadEnTareas (db : DB) (pid : Nat) : Int :=
  ((db.tareasDescuento.filter (fun t => t.palletEntradaID == pid)).map
    (fun t => t.cantidadSolicitada)).sum

/-- POST /api/tareas-descuento, transaction body (server.js:324-394):
re-read the lot availability, reject when cantidad <= 0 or
cantidad > disponible, otherwise insert the task (Pendiente, Libre) and a
CREACION_TAREA movement. -/
def createTask (db : DB) (palletEntradaID : Nat) (cliente : String)
    (cantidad : Int) (pasillo prioridad : String) : DB × Except ApiErr Nat :=
  match db.palletsEntrada.find? (fun p => p.id == palletEntradaID) with
  | none => (db, Except.error ApiErr.notFound)
  | some pe =>
    let disponible := pe.cantidad - cantidadEnTareas db palletEntradaID
    if cantidad ≤ 0 ∨ cantidad > disponible then
      (db, Except.error ApiErr.insufficientAvailability)
    else
      let tareaId := db.nextTareaId
      let tarea : TareaDescuento :=
        { id := tareaId
          palletEntradaID := palletEntradaID
          cliente := cliente
          cantidadSolicitada := cantidad
          pasillo := pasillo
          prioridad := prioridad
          estado := Estado.Pendiente
          estadoProceso := EstadoProceso.Libre
          usuarioProcesando := none }
      let mov : Movimiento :=
        { tipoMovimiento := TipoMovimiento.CREACION_TAREA
          palletEntradaID := none
          tareaDescuentoID := some tareaId
          palletsDescontadosID := none
          cliente := cliente
          cantidad := cantidad
          pasillo := some pasillo
          usuario := "Sistema" }
      ({ db with
          tareasDescuento := db.tareasDescuento ++ [tarea]
          movimientos := db.movimientos ++ [mov]
          nextTareaId := tareaId + 1 }, Except.ok tareaId)

/-- DELETE /api/tareas-descuento/:id, transaction body (server.js:453-521):
refuse when the task is absent or already Completada/Cancelada, otherwise
delete the movements referencing the task, its discount rows, and the task
row itself. -/
def deleteTask (db : DB) (taskId : Nat) : DB × Except ApiErr Nat :=
  match db.tareasDescuento.find? (fun t => t.id == taskId) with
  | none => (db, Except.error ApiErr.notFound)
  | some tarea =>
    if tarea.estado = Estado.Completada ∨ tarea.estado = Estado.Cancelada then
      (db, Except.error ApiErr.invalidState)
    else
      ({ db with
          movimientos :=
            db.movimientos.filter (fun m => !(m.tareaDescuentoID == some taskId))
          palletsDescontados :=
            db.palletsDescontados.filter (fun d => !(d.tareaDescuentoID == some taskId))
          tareasDescuento :=
            db.tareasDescuento.filter (fun t => !(t.id == taskId)) },
       Except.ok taskId)

/-- POST /api/tareas-descuento/:id/bloquear, transaction body
(server.js:560-654): re-read the task; 409 when EnProceso held by another
user; otherwise set EstadoProceso to EnProceso with the caller as holder
(the UPDATE condition EstadoProceso IN (Libre, EnProceso) covers both lock
states, so the conditional update always hits the row found by the SELECT);
a TOMA_POSESION movement is inserted, via INSERT..SELECT from the task row,
only when the prior lock state was Libre. -/
def claimTask (db : DB) (taskId : Nat) (usuario : String) :
    DB × Except ApiErr Nat :=
  match db.tareasDescuento.find? (fun t => t.id == taskId) with
  | none => (db, Except.error ApiErr.notFound)
  | some tarea =>
    if tarea.estadoProceso = EstadoProceso.EnProceso ∧
        tarea.usuarioProcesando ≠ some usuario then
      (db, Except.error ApiErr.conflict)
    else
      let tareas := db.tareasDescuento.map (fun t =>
        if t.id == taskId &&
            (t.estadoProceso == EstadoProceso.Libre ||
             t.estadoProceso == EstadoProceso.EnProceso) then
          { t with estadoProceso := EstadoProceso.EnProceso
                   usuarioProcesando := some usuario }
        else t)
      let added :=
        if tarea.estadoProceso = EstadoProceso.Libre then
          (tareas.filter (fun t => t.id == taskId)).map (fun t =>
            { tipoMovimiento := TipoMovimiento.TOMA_POSESION
              palletEntradaID := none
              tareaDescuentoID := some t.id
              palletsDescontadosID := none
              cliente := t.cliente
              cantidad := t.cantidadSolicitada
              pasillo := some t.pasillo
              usuario := usuario })
        else []
      ({ db with
          tareasDescuento := tareas
          movimientos := db.movimientos ++ added }, Except.ok taskId)

/-- POST /api/tareas-descuento/:id/desbloquear, transaction body
(server.js:864-954): only the current holder of an EnProceso task may
release it; the lock is reset to Libre with the holder cleared and a
DESBLOQUEO_TAREA movement (Usuario = Sistema) is inserted via
INSERT..SELECT from the task row. -/
def releaseTask (db : DB) (taskId : Nat) (usuario : String) :
    DB × Except ApiErr Nat :=
  match db.tareasDescuento.find? (fun t => t.id == taskId) with
  | none => (db, Except.error ApiErr.notFound)
  | some tarea =>
    if tarea.estadoProceso ≠ EstadoProceso.EnProceso then
      (db, Except.error ApiErr.invalidState)
    else if tarea.usuarioProcesando ≠ some usuario then
      (db, Except.error ApiErr.forbidden)
    else
      let tareas := db.tareasDescuento.map (fun t =>
        if t.id == taskId && t.usuarioProcesando == some usuario then
          { t with estadoProceso := EstadoProceso.Libre
                   usuarioProcesando := none }
        else t)
      let added :=
        (tareas.filter (fun t => t.id == taskId)).map (fun t =>
          { tipoMovimiento := TipoMovimiento.DESBLOQUEO_TAREA
            palletEntradaID := none
            tareaDescuentoID := some t.id
            palletsDescontadosID := none
            cliente := t.cliente
            cantidad := t.cantidadSolicitada
            pasillo := some t.pasillo
            usuario := "Sistema" })
      ({ db with
          tareasDescuento := tareas
          movimientos := db.movimientos ++ added }, Except.ok taskId)

/-- SUM(CantidadDescontada) over PalletsDescontados with
TareaDescuentoID = taskId, as read by POST /api/descontar-pallet
(server.js:734-738). -/
def descontadoEnTarea (db : DB) (taskId : Nat) : Int :=
  ((db.palletsDescontados.filter
      (fun d => d.tareaDescuentoID == some taskId)).map
    (fun d => d.cantidadDescontada)).sum

/-- POST /api/descontar-pallet, transaction body (server.js:698-824):
requires the task to exist, be EnProceso and held by the caller; recomputes
the pending amount, rejects when cantidad <= 0 or cantidad > pendiente,
inserts the discount row, completes the task (Estado Completada, lock
Libre, holder cleared) when cantidad equals the pending amount and
otherwise just releases the lock, then appends a DESCUENTO movement
referencing both the task and the new discount row. -/
def descontarPallet (db : DB) (tareaId : Nat) (cantidadADescontar : Int)
    (usuario : String) : DB × Except ApiErr Nat :=
  match db.tareasDescuento.find? (fun t => t.id == tareaId) with
  | none => (db, Except.error ApiErr.notFound)
  | some tarea =>
    if tarea.estadoProceso ≠ EstadoProceso.EnProceso then
      (db, Except.error ApiErr.invalidState)
    else if tarea.usuarioProcesando ≠ some usuario then
      (db, Except.error ApiErr.forbidden)
    else
      let descontadoHastaAhora := descontadoEnTarea db tareaId
      let cantidadPendienteEnTarea :=
        tarea.cantidadSolicitada - descontadoHastaAhora
      if cantidadADescontar ≤ 0 ∨
          cantidadADescontar > cantidadPendienteEnTarea then
        (db, Except.error ApiErr.invalidQuantity)
      else
        let palletDescontadoId := db.nextDescontadoId
        let desc : PalletDescontado :=
          { id := palletDescontadoId
            tareaDescuentoID := some tareaId
            cliente := tarea.cliente
            cantidadDescontada := cantidadADescontar
            palletEntradaID := none }
        let tareas :=
          if cantidadADescontar = cantidadPendienteEnTarea then
            db.tareasDescuento.map (fun t =>
              if t.id == tareaId then
                { t with estado := Estado.Completada
                         estadoProceso := EstadoProceso.Libre
                         usuarioProcesando := none }
              else t)
          else
            db.tareasDescuento.map (fun t =>
              if t.id == tareaId &&
                  t.estadoProceso == EstadoProceso.EnProceso then
                { t with estadoProceso := EstadoProceso.Libre
                         usuarioProcesando := none }
              else t)
        let mov : Movimiento :=
          { tipoMovimiento := TipoMovimiento.DESCUENTO
            palletEntradaID := none
            tareaDescuentoID := some tareaId
            palletsDescontadosID := some palletDescontadoId
            cliente := tarea.cliente
            cantidad := cantidadADescontar
            pasillo := some tarea.pasillo
            usuario := usuario }
        ({ db with
            palletsDescontados := db.palletsDescontados ++ [desc]
            tareasDescuento := tareas
            movimientos := db.movimientos ++ [mov]
            nextDescontadoId := palletDescontadoId + 1 },
         Except.ok palletDescontadoId)

/-- SUM(CantidadDescontada) over PalletsDescontados with
TareaDescuentoID IS NULL and PalletEntradaID = pid, as read by
POST /api/descontar-pallet-directo (server.js:989-994). -/
def descontadoDirectoDePallet (db : DB) (pid : Nat) : Int :=
  ((db.palletsDescontados.filter
      (fun d => d.tareaDescuentoID == (none : Option Nat) &&
        d.palletEntradaID == some pid)).map
    (fun d => d.cantidadDescontada)).sum

/-- SUM(CantidadSolicitada) over TareasDescuento with PalletEntradaID = pid
and Estado = Pendiente, as read by POST /api/descontar-pallet-directo
(server.js:996-999). -/
def enTareasPendientes (db : DB) (pid : Nat) : Int :=
  ((db.tareasDescuento.filter
      (fun t => t.palletEntradaID == pid &&
        t.estado == Estado.Pendiente)).map
    (fun t => t.cantidadSolicitada)).sum

/-- POST /api/descontar-pallet-directo, transaction body
(server.js:972-1047): requires the lot to exist; direct availability is the
lot total minus direct discounts minus Pendiente tasks' requested
quantities; rejects when cantidad <= 0 or cantidad > this availability,
otherwise inserts a discount row with NULL task reference and appends a
DESCUENTO_DIRECTO movement. -/
def descontarPalletDirecto (db : DB) (palletEntradaId : Nat)
    (cantidadADescontar : Int) : DB × Except ApiErr Nat :=
  match db.palletsEntrada.find? (fun p => p.id == palletEntradaId) with
  | none => (db, Except.error ApiErr.notFound)
  | some pallet =>
    let disponibleParaDescuentoDirecto :=
      pallet.cantidad - descontadoDirectoDePallet db palletEntradaId
        - enTareasPendientes db palletEntradaId
    if cantidadADescontar ≤ 0 ∨
        cantidadADescontar > disponibleParaDescuentoDirecto then
      (db, Except.error ApiErr.invalidQuantity)
    else
      let palletDescontadoId := db.nextDescontadoId
      let desc : PalletDescontado :=
        { id := palletDescontadoId
          tareaDescuentoID := none
          cliente := pallet.cliente
          cantidadDescontada := cantidadADescontar
          palletEntradaID := some palletEntradaId }
      let mov : Movimiento :=
        { tipoMovimiento := TipoMovimiento.DESCUENTO_DIRECTO
          palletEntradaID := some palletEntradaId
          tareaDescuentoID := none
          palletsDescontadosID := some palletDescontadoId
          cliente := pallet.cliente
          cantidad := cantidadADescontar
          pasillo := none
          usuario := "Sistema" }
      ({ db with
          palletsDescontados := db.palletsDescontados ++ [desc]
          movimientos := db.movimientos ++ [mov]
          nextDescontadoId := palletDescontadoId + 1 },
       Except.ok palletDescontadoId)

/-- Requested quantity of a task not yet covered by its discounts. -/
def pendiente (db : DB) (t : TareaDescuento) : Int :=
  t.cantidadSolicitada - descontadoEnTarea db t.id

/-- One successful state-changing request.  Failed requests roll back their
transaction and leave the database unchanged, so they are not transitions.
The HTTP layer additionally validates intake input before the transaction
(server.js:249-251); the checks that constrain the stored state are kept as
hypotheses. -/
inductive Step : DB → DB → Prop
  | intake (db : DB) (cliente : String) (cantidad : Int) (usuario : String)
      (hq : 0 < cantidad) :
      Step db (recordIntake db cliente cantidad usuario).1
  | create (db db2 : DB) (pid : Nat) (cliente : String) (cantidad : Int)
      (pasillo prioridad : String) (tid : Nat)
      (h : createTask db pid cliente cantidad pasillo prioridad =
        (db2, Except.ok tid)) :
      Step db db2
  | delete (db db2 : DB) (taskId tid : Nat)
      (h : deleteTask db taskId = (db2, Except.ok tid)) :
      Step db db2
  | claim (db db2 : DB) (taskId : Nat) (usuario : String) (tid : Nat)
      (h : claimTask db taskId usuario = (db2, Except.ok tid)) :
      Step db db2
  | release (db db2 : DB) (taskId : Nat) (usuario : String) (tid : Nat)
      (h : releaseTask db taskId usuario = (db2, Except.ok tid)) :
      Step db db2
  | descontar (db db2 : DB) (taskId : Nat) (cantidad : Int)
      (usuario : String) (did : Nat)
      (h : descontarPallet db taskId cantidad usuario =
        (db2, Except.ok did)) :
      Step db db2
  | descontarDirecto (db db2 : DB) (pid : Nat) (cantidad : Int) (did : Nat)
      (h : descontarPalletDirecto db pid cantidad = (db2, Except.ok did)) :
      Step db db2

/-- States reachable from the empty database through successful requests. -/
inductive Reachable : DB → Prop
  | init : Reachable initDB
  | step (db db2 : DB) : Reachable db → Step db db2 → Reachable db2

/-! Shape lemmas: each one unfolds the success branch of an operation into
an explicit description of the successor state. -/

theorem createTask_ok (db db2 : DB) (pid : Nat) (cliente : String)
    (cantidad : Int) (pasillo prioridad : String) (tid : Nat)
    (h : createTask db pid cliente cantidad pasillo prioridad =
      (db2, Except.ok tid)) :
    ∃ pe, db.palletsEntrada.find? (fun p => p.id == pid) = some pe ∧
      0 < cantidad ∧ cantidad ≤ pe.cantidad - cantidadEnTareas db pid ∧
      tid = db.nextTareaId ∧
      db2 = { db with
        tareasDescuento := db.tareasDescuento ++
          [{ id := db.nextTareaId
             palletEntradaID := pid
             cliente := cliente
             cantidadSolicitada := cantidad
             pasillo := pasillo
             prioridad := prioridad
             estado := Estado.Pendiente
             estadoProceso := EstadoProceso.Libre
             usuarioProcesando := none }]
        movimientos := db.movimientos ++
          [{ tipoMovimiento := TipoMovimiento.CREACION_TAREA
             palletEntradaID := none
             tareaDescuentoID := some db.nextTareaId
             palletsDescontadosID := none
             cliente := cliente
             cantidad := cantidad
             pasillo := some pasillo
             usuario := "Sistema" }]
        nextTareaId := db.nextTareaId + 1 } := by
  unfold createTask at h
  split at h
  · simp at h
  · rename_i pe hf
    dsimp only at h
    split at h
    · simp at h
    · rename_i hc
      push_neg at hc
      rw [Prod.mk.injEq] at h
      exact ⟨pe, hf, hc.1, hc.2, (Except.ok.inj h.2).symm, h.1.symm⟩

theorem deleteTask_ok (db db2 : DB) (taskId tid : Nat)
    (h : deleteTask db taskId = (db2, Except.ok tid)) :
    ∃ tarea,
      db.tareasDescuento.find? (fun t => t.id == taskId) = some tarea ∧
      tarea.estado ≠ Estado.Completada ∧ tarea.estado ≠ Estado.Cancelada ∧
      tid = taskId ∧
      db2 = { db with
        movimientos :=
          db.movimientos.filter (fun m => !(m.tareaDescuentoID == some taskId))
        palletsDescontados :=
          db.palletsDescontados.filter (fun d => !(d.tareaDescuentoID == some taskId))
        tareasDescuento :=
          db.tareasDescuento.filter (fun t => !(t.id == taskId)) } := by
  unfold deleteTask at h
  split at h
  · simp at h
  · rename_i tarea hf
    split at h
    · simp at h
    · rename_i hc
      push_neg at hc
      rw [Prod.mk.injEq] at h
      exact ⟨tarea, hf, hc.1, hc.2, (Except.ok.inj h.2).symm, h.1.symm⟩

theorem claimTask_ok (db db2 : DB) (taskId : Nat) (usuario : String)
    (tid : Nat) (h : claimTask db taskId usuario = (db2, Except.ok tid)) :
    (∃ l, db2.movimientos = db.movimientos ++ l) ∧
    db2.palletsEntrada = db.palletsEntrada ∧
    db2.palletsDescontados = db.palletsDescontados ∧
    db2.nextTareaId = db.nextTareaId ∧
    db2.nextDescontadoId = db.nextDescontadoId ∧
    db2.tareasDescuento = db.tareasDescuento.map (fun t =>
      if t.id == taskId &&
          (t.estadoProceso == EstadoProceso.Libre ||
           t.estadoProceso == EstadoProceso.EnProceso) then
        { t with estadoProceso := EstadoProceso.EnProceso
                 usuarioProcesando := some usuario }
      else t) := by
  unfold claimTask at h
  split at h
  · simp at h
  · rename_i tarea hf
    dsimp only at h
    split at h
    · simp at h
    · rw [Prod.mk.injEq] at h
      rw [← h.1]
      exact ⟨⟨_, rfl⟩, rfl, rfl, rfl, rfl, rfl⟩

theorem releaseTask_ok (db db2 : DB) (taskId : Nat) (usuario : String)
    (tid : Nat) (h : releaseTask db taskId usuario = (db2, Except.ok tid)) :
    (∃ l, db2.movimientos = db.movimientos ++ l) ∧
    db2.palletsEntrada = db.palletsEntrada ∧
    db2.palletsDescontados = db.palletsDescontados ∧
    db2.nextTareaId = db.nextTareaId ∧
    db2.nextDescontadoId = db.nextDescontadoId ∧
    db2.tareasDescuento = db.tareasDescuento.map (fun t =>
      if t.id == taskId && t.usuarioProcesando == some usuario then
        { t with estadoProceso := EstadoProceso.Libre
                 usuarioProcesando := none }
      else t) := by
  unfold releaseTask at h
  split at h
  · simp at h
  · rename_i tarea hf
    split at h
    · simp at h
    · split at h
      · simp at h
      · rw [Prod.mk.injEq] at h
        rw [← h.1]
        exact ⟨⟨_, rfl⟩, rfl, rfl, rfl, rfl, rfl⟩

theorem descontarPallet_ok (db db2 : DB) (taskId : Nat) (cantidad : Int)
    (usuario : String) (did : Nat)
    (h : descontarPallet db taskId cantidad usuario = (db2, Except.ok did)) :
    ∃ tarea,
      db.tareasDescuento.find? (fun t => t.id == taskId) = some tarea ∧
      tarea.estadoProceso = EstadoProceso.EnProceso ∧
      tarea.usuarioProcesando = some usuario ∧
      0 < cantidad ∧
      cantidad ≤ tarea.cantidadSolicitada - descontadoEnTarea db taskId ∧
      did = db.nextDescontadoId ∧
      db2.palletsEntrada = db.palletsEntrada ∧
      db2.palletsDescontados = db.palletsDescontados ++
        [{ id := db.nextDescontadoId
           tareaDescuentoID := some taskId
           cliente := tarea.cliente
           cantidadDescontada := cantidad
           palletEntradaID := none }] ∧
      db2.movimientos = db.movimientos ++
        [{ tipoMovimiento := TipoMovimiento.DESCUENTO
           palletEntradaID := none
           tareaDescuentoID := some taskId
           palletsDescontadosID := some db.nextDescontadoId
           cliente := tarea.cliente
           cantidad := cantidad
           pasillo := some tarea.pasillo
           usuario := usuario }] ∧
      db2.nextTareaId = db.nextTareaId ∧
      db2.tareasDescuento =
        (if cantidad = tarea.cantidadSolicitada - descontadoEnTarea db taskId then
          db.tareasDescuento.map (fun t =>
            if t.id == taskId then
              { t with estado := Estado.Completada
                       estadoProceso := EstadoProceso.Libre
                       usuarioProcesando := none }
            else t)
        else
          db.tareasDescuento.map (fun t =>
            if t.id == taskId &&
                t.estadoProceso == EstadoProceso.EnProceso then
              { t with estadoProceso := EstadoProceso.Libre
                       usuarioProcesando := none }
            else t)) := by
  unfold descontarPallet at h
  split at h
  · simp at h
  · rename_i tarea hf
    split at h
    · simp at h
    · rename_i hproc
      split at h
      · simp at h
      · rename_i husr
        dsimp only at h
        split at h
        · simp at h
        · rename_i hc
          push_neg at hc
          rw [Prod.mk.injEq] at h
          rw [not_ne_iff] at hproc
          rw [not_ne_iff] at husr
          refine ⟨tarea, hf, hproc, husr, hc.1, hc.2,
            (Except.ok.inj h.2).symm, ?_, ?_, ?_, ?_, ?_⟩ <;>
            rw [← h.1]

theorem descontarPalletDirecto_ok (db db2 : DB) (pid : Nat) (cantidad : Int)
    (did : Nat)
    (h : descontarPalletDirecto db pid cantidad = (db2, Except.ok did)) :
    ∃ pallet,
      db.palletsEntrada.find? (fun p => p.id == pid) = some pallet ∧
      0 < cantidad ∧
      cantidad ≤ pallet.cantidad - descontadoDirectoDePallet db pid
        - enTareasPendientes db pid ∧
      did = db.nextDescontadoId ∧
      db2 = { db with
        palletsDescontados := db.palletsDescontados ++
          [{ id := db.nextDescontadoId
             tareaDescuentoID := none
             cliente := pallet.cliente
             cantidadDescontada := cantidad
             palletEntradaID := some pid }]
        movimientos := db.movimientos ++
          [{ tipoMovimiento := TipoMovimiento.DESCUENTO_DIRECTO
             palletEntradaID := some pid
             tareaDescuentoID := none
             palletsDescontadosID := some db.nextDescontadoId
             cliente := pallet.cliente
             cantidad := cantidad
             pasillo := none
             usuario := "Sistema" }]
        nextDescontadoId := db.nextDescontadoId + 1 } := by
  unfold descontarPalletDirecto at h
  split at h
  · simp at h
  · rename_i pallet hf
    dsimp only at h
    split at h
    · simp at h
    · rename_i hc
      push_neg at hc
      rw [Prod.mk.injEq] at h
      exact ⟨pallet, hf, hc.1, hc.2, (Except.ok.inj h.2).symm, h.1.symm⟩

/-! Database well-formedness: primary keys are below the identity counters
and task ids are unique, together with the pending-amount invariant. -/

/-- Every task id is below the identity counter. -/
def TaskIdsBelow (db : DB) : Prop :=
  ∀ t ∈ db.tareasDescuento, t.id < db.nextTareaId

/-- Every discount's task reference is below the task identity counter. -/
def DiscountRefsBelow (db : DB) : Prop :=
  ∀ d ∈ db.palletsDescontados, ∀ k, d.tareaDescuentoID = some k →
    k < db.nextTareaId

/-- Task ids are pairwise distinct (primary key). -/
def UniqueTaskIds (db : DB) : Prop :=
  db.tareasDescuento.Pairwise (fun a b => a.id ≠ b.id)

/-- The pending amount of every task is nonnegative, and a fully consumed
task is Completada. -/
def TaskInv (db : DB) : Prop :=
  ∀ t ∈ db.tareasDescuento,
    0 ≤ pendiente db t ∧ (pendiente db t = 0 → t.estado = Estado.Completada)

/-- The inductive invariant of the state machine. -/
def Inv (db : DB) : Prop :=
  TaskIdsBelow db ∧ DiscountRefsBelow db ∧ UniqueTaskIds db ∧ TaskInv db

theorem eq_of_mem_of_pairwise_ne {l : List TareaDescuento}
    (hpw : l.Pairwise (fun a b => a.id ≠ b.id)) {a b : TareaDescuento}
    (ha : a ∈ l) (hb : b ∈ l) (hid : a.id = b.id) : a = b := by
  induction l with
  | nil => cases ha
  | cons x xs ih =>
    rw [List.pairwise_cons] at hpw
    cases ha with
    | head =>
      cases hb with
      | head => rfl
      | tail _ hb => exact absurd hid (hpw.1 b hb)
    | tail _ ha2 =>
      cases hb with
      | head => exact absurd hid.symm (hpw.1 a ha2)
      | tail _ hb2 => exact ih hpw.2 ha2 hb2

theorem descontadoEnTarea_congr (db db2 : DB)
    (h : db2.palletsDescontados = db.palletsDescontados) (k : Nat) :
    descontadoEnTarea db2 k = descontadoEnTarea db k := by
  simp only [descontadoEnTarea, h]

theorem descontadoEnTarea_append (db db2 : DB) (d : PalletDescontado)
    (h : db2.palletsDescontados = db.palletsDescontados ++ [d]) (k : Nat) :
    descontadoEnTarea db2 k = descontadoEnTarea db k +
      (if d.tareaDescuentoID == some k then d.cantidadDescontada else 0) := by
  simp only [descontadoEnTarea, h, List.filter_append, List.map_append,
    List.sum_append]
  congr 1
  split
  · rename_i hd
    simp [List.filter_cons, hd]
  · rename_i hd
    simp only [Bool.not_eq_true] at hd
    simp [List.filter_cons, hd]

theorem descontadoEnTarea_zero_of_refs_below (db : DB)
    (h : DiscountRefsBelow db) :
    descontadoEnTarea db db.nextTareaId = 0 := by
  unfold descontadoEnTarea
  have : db.palletsDescontados.filter
      (fun d => d.tareaDescuentoID == some db.nextTareaId) = [] := by
    rw [List.filter_eq_nil_iff]
    intro d hd
    intro hcontra
    rw [beq_iff_eq] at hcontra
    exact absurd (h d hd db.nextTareaId hcontra) (lt_irrefl _)
  rw [this]
  rfl

theorem descontadoEnTarea_filter_other (db db2 : DB) (taskId : Nat)
    (h : db2.palletsDescontados = db.palletsDescontados.filter
      (fun d => !(d.tareaDescuentoID == some taskId)))
    (k : Nat) (hk : k ≠ taskId) :
    descontadoEnTarea db2 k = descontadoEnTarea db k := by
  simp only [descontadoEnTarea, h, List.filter_filter]
  congr 2
  apply List.filter_congr
  intro d _
  cases hd : (d.tareaDescuentoID == some k) with
  | false => simp
  | true =>
    rw [beq_iff_eq] at hd
    simp [hd, hk]

/-! Preservation of the invariant by each operation. -/

theorem inv_of_lock_update (db db2 : DB) (f : TareaDescuento → TareaDescuento)
    (hid : ∀ t, (f t).id = t.id)
    (hcant : ∀ t, (f t).cantidadSolicitada = t.cantidadSolicitada)
    (hest : ∀ t, (f t).estado = t.estado)
    (hpd : db2.palletsDescontados = db.palletsDescontados)
    (hnext : db2.nextTareaId = db.nextTareaId)
    (ht : db2.tareasDescuento = db.tareasDescuento.map f)
    (hinv : Inv db) : Inv db2 := by
  obtain ⟨hbelow, hrefs, huniq, htask⟩ := hinv
  refine ⟨?_, ?_, ?_, ?_⟩
  · intro t htmem
    rw [ht, List.mem_map] at htmem
    obtain ⟨t0, ht0, rfl⟩ := htmem
    rw [hid, hnext]
    exact hbelow t0 ht0
  · intro d hd k hk
    rw [hpd] at hd
    rw [hnext]
    exact hrefs d hd k hk
  · rw [UniqueTaskIds, ht, List.pairwise_map]
    refine huniq.imp ?_
    intro a b hab
    rw [hid, hid]
    exact hab
  · intro t htmem
    rw [ht, List.mem_map] at htmem
    obtain ⟨t0, ht0, rfl⟩ := htmem
    have hpend : pendiente db2 (f t0) = pendiente db t0 := by
      rw [pendiente, pendiente, hcant, hid,
        descontadoEnTarea_congr db db2 hpd]
    rw [hpend, hest]
    exact htask t0 ht0

theorem inv_intake (db : DB) (cliente : String) (cantidad : Int)
    (usuario : String) (hinv : Inv db) :
    Inv (recordIntake db cliente cantidad usuario).1 := by
  obtain ⟨hbelow, hrefs, huniq, htask⟩ := hinv
  refine ⟨hbelow, hrefs, huniq, ?_⟩
  intro t htmem
  have hpend : pendiente (recordIntake db cliente cantidad usuario).1 t =
      pendiente db t := by
    simp only [pendiente, descontadoEnTarea, recordIntake]
  rw [hpend]
  exact htask t htmem

theorem inv_createTask (db db2 : DB) (pid : Nat) (cliente : String)
    (cantidad : Int) (pasillo prioridad : String) (tid : Nat)
    (h : createTask db pid cliente cantidad pasillo prioridad =
      (db2, Except.ok tid))
    (hinv : Inv db) : Inv db2 := by
  obtain ⟨pe, hf, hpos, hle, htid, hdb2⟩ :=
    createTask_ok db db2 pid cliente cantidad pasillo prioridad tid h
  obtain ⟨hbelow, hrefs, huniq, htask⟩ := hinv
  have hpd : db2.palletsDescontados = db.palletsDescontados := by rw [hdb2]
  have hnext : db2.nextTareaId = db.nextTareaId + 1 := by rw [hdb2]
  have hta : db2.tareasDescuento = db.tareasDescuento ++
      [{ id := db.nextTareaId
         palletEntradaID := pid
         cliente := cliente
         cantidadSolicitada := cantidad
         pasillo := pasillo
         prioridad := prioridad
         estado := Estado.Pendiente
         estadoProceso := EstadoProceso.Libre
         usuarioProcesando := none }] := by rw [hdb2]
  have hdisc : ∀ k, descontadoEnTarea db2 k = descontadoEnTarea db k :=
    descontadoEnTarea_congr db db2 hpd
  refine ⟨?_, ?_, ?_, ?_⟩
  · intro t htmem
    rw [hta] at htmem
    rw [hnext]
    simp only [List.mem_append, List.mem_singleton] at htmem
    cases htmem with
    | inl hmem => exact Nat.lt_succ_of_lt (hbelow t hmem)
    | inr heq => rw [heq]; exact Nat.lt_succ_self _
  · intro d hd k hk
    rw [hpd] at hd
    rw [hnext]
    exact Nat.lt_succ_of_lt (hrefs d hd k hk)
  · rw [UniqueTaskIds, hta, List.pairwise_append]
    refine ⟨huniq, List.pairwise_singleton _ _, ?_⟩
    intro a ha b hb
    rw [List.mem_singleton] at hb
    rw [hb]
    exact Nat.ne_of_lt (hbelow a ha)
  · intro t htmem
    rw [hta] at htmem
    simp only [List.mem_append, List.mem_singleton] at htmem
    cases htmem with
    | inl hmem =>
      have hold := htask t hmem
      rw [pendiente, hdisc]
      exact hold
    | inr heq =>
      subst heq
      rw [pendiente, hdisc]
      have hzero : descontadoEnTarea db db.nextTareaId = 0 :=
        descontadoEnTarea_zero_of_refs_below db hrefs
      simp only [hzero]
      constructor
      · omega
      · intro hcontra
        omega

theorem inv_deleteTask (db db2 : DB) (taskId tid : Nat)
    (h : deleteTask db taskId = (db2, Except.ok tid)) (hinv : Inv db) :
    Inv db2 := by
  obtain ⟨tarea, hf, hnc, hnca, htid, hdb2⟩ := deleteTask_ok db db2 taskId tid h
  obtain ⟨hbelow, hrefs, huniq, htask⟩ := hinv
  have hpd : db2.palletsDescontados = db.palletsDescontados.filter
      (fun d => !(d.tareaDescuentoID == some taskId)) := by rw [hdb2]
  have hnext : db2.nextTareaId = db.nextTareaId := by rw [hdb2]
  have hta : db2.tareasDescuento =
      db.tareasDescuento.filter (fun t => !(t.id == taskId)) := by rw [hdb2]
  refine ⟨?_, ?_, ?_, ?_⟩
  · intro t htmem
    rw [hta] at htmem
    rw [hnext]
    exact hbelow t (List.mem_of_mem_filter htmem)
  · intro d hd k hk
    rw [hpd] at hd
    rw [hnext]
    exact hrefs d (List.mem_of_mem_filter hd) k hk
  · rw [UniqueTaskIds, hta]
    exact huniq.sublist (List.filter_sublist _)
  · intro t htmem
    rw [hta] at htmem
    have hmem := List.mem_of_mem_filter htmem
    have hne : t.id ≠ taskId := by
      have := List.of_mem_filter htmem
      simpa using this
    have hpend : pendiente db2 t = pendiente db t := by
      rw [pendiente, pendiente,
        descontadoEnTarea_filter_other db db2 taskId hpd t.id hne]
    rw [hpend]
    exact htask t hmem

theorem inv_descontarPallet (db db2 : DB) (taskId : Nat) (cantidad : Int)
    (usuario : String) (did : Nat)
    (h : descontarPallet db taskId cantidad usuario = (db2, Except.ok did))
    (hinv : Inv db) : Inv db2 := by
  obtain ⟨tarea, hf, hproc, husr, hpos, hle, hdid, hpe, hpd, hmov, hnext, hta⟩ :=
    descontarPallet_ok db db2 taskId cantidad usuario did h
  obtain ⟨hbelow, hrefs, huniq, htask⟩ := hinv
  have htaskmem : tarea ∈ db.tareasDescuento := List.mem_of_find?_eq_some hf
  have htaskid : tarea.id = taskId := by
    have := List.find?_some hf
    simpa using this
  -- the inserted discount row changes only the target task's running sum
  have hdisc : ∀ k, descontadoEnTarea db2 k = descontadoEnTarea db k +
      (if k = taskId then cantidad else 0) := by
    intro k
    rw [descontadoEnTarea_append db db2 _ hpd k]
    by_cases hk : k = taskId
    · simp [hk]
    · simp [hk, Ne.symm hk]
  refine ⟨?_, ?_, ?_, ?_⟩
  · intro t htmem
    rw [hnext]
    rw [hta] at htmem
    split at htmem <;>
    · rw [List.mem_map] at htmem
      obtain ⟨t0, ht0, rfl⟩ := htmem
      have := hbelow t0 ht0
      split <;> simpa using this
  · intro d hd k hk
    rw [hpd] at hd
    rw [hnext]
    rw [List.mem_append, List.mem_singleton] at hd
    cases hd with
    | inl hd0 => exact hrefs d hd0 k hk
    | inr hd0 =>
      subst hd0
      simp only [Option.some.injEq] at hk
      rw [← hk, ← htaskid]
      exact hbelow tarea htaskmem
  · rw [UniqueTaskIds, hta]
    split <;>
    · rw [List.pairwise_map]
      refine huniq.imp ?_
      intro a b hab
      split <;> split <;> simpa using hab
  · intro t htmem
    rw [hta] at htmem
    -- every row of the updated table comes from a row of the old table,
    -- with lifecycle state possibly promoted to Completada on the target
    split at htmem
    · -- full discount: the target row is completed
      rename_i hfull
      rw [List.mem_map] at htmem
      obtain ⟨t0, ht0, rfl⟩ := htmem
      by_cases ht0id : t0.id = taskId
      · have ht0eq : t0 = tarea :=
          eq_of_mem_of_pairwise_ne huniq ht0 htaskmem (by rw [ht0id, htaskid])
        subst ht0eq
        rw [if_pos (by simpa using ht0id)]
        have hpend2 : pendiente db2
            { t0 with estado := Estado.Completada
                      estadoProceso := EstadoProceso.Libre
                      usuarioProcesando := none } =
            pendiente db t0 - cantidad := by
          rw [pendiente, pendiente]
          simp only
          rw [hdisc t0.id, if_pos ht0id]
          ring
        rw [hpend2]
        constructor
        · rw [pendiente, ht0id, hfull]
          omega
        · intro _
          rfl
      · rw [if_neg (by simpa using ht0id)]
        have hpend2 : pendiente db2 t0 = pendiente db t0 := by
          rw [pendiente, pendiente, hdisc t0.id, if_neg ht0id]
          ring
        rw [hpend2]
        exact htask t0 ht0
    · -- partial discount: the pending amount stays positive
      rename_i hpart
      rw [List.mem_map] at htmem
      obtain ⟨t0, ht0, rfl⟩ := htmem
      by_cases ht0id : t0.id = taskId
      · have ht0eq : t0 = tarea :=
          eq_of_mem_of_pairwise_ne huniq ht0 htaskmem (by rw [ht0id, htaskid])
        subst ht0eq
        rw [if_pos (by simp [ht0id, hproc])]
        have hpend2 : pendiente db2
            { t0 with estadoProceso := EstadoProceso.Libre
                      usuarioProcesando := none } =
            pendiente db t0 - cantidad := by
          rw [pendiente, pendiente]
          simp only
          rw [hdisc t0.id, if_pos ht0id]
          ring
        rw [hpend2]
        have hlt : cantidad < pendiente db t0 := by
          rw [pendiente, ht0id]
          rcases lt_or_eq_of_le hle with hlt | heq
          · exact hlt
          · exact absurd heq hpart
        constructor
        · omega
        · intro hzero
          omega
      · have hcond : (t0.id == taskId &&
            t0.estadoProceso == EstadoProceso.EnProceso) = false := by
          simp [ht0id]
        rw [if_neg (by simp [hcond])]
        have hpend2 : pendiente db2 t0 = pendiente db t0 := by
          rw [pendiente, pendiente, hdisc t0.id, if_neg ht0id]
          ring
        rw [hpend2]
        exact htask t0 ht0

theorem inv_descontarPalletDirecto (db db2 : DB) (pid : Nat)
    (cantidad : Int) (did : Nat)
    (h : descontarPalletDirecto db pid cantidad = (db2, Except.ok did))
    (hinv : Inv db) : Inv db2 := by
  obtain ⟨pallet, hf, hpos, hle, hdid, hdb2⟩ :=
    descontarPalletDirecto_ok db db2 pid cantidad did h
  obtain ⟨hbelow, hrefs, huniq, htask⟩ := hinv
  have hpd : db2.palletsDescontados = db.palletsDescontados ++
      [{ id := db.nextDescontadoId
         tareaDescuentoID := none
         cliente := pallet.cliente
         cantidadDescontada := cantidad
         palletEntradaID := some pid }] := by rw [hdb2]
  have hnext : db2.nextTareaId = db.nextTareaId := by rw [hdb2]
  have hta : db2.tareasDescuento = db.tareasDescuento := by rw [hdb2]
  have hdisc : ∀ k, descontadoEnTarea db2 k = descontadoEnTarea db k := by
    intro k
    rw [descontadoEnTarea_append db db2 _ hpd k]
    simp
  refine ⟨?_, ?_, ?_, ?_⟩
  · intro t htmem
    rw [hta] at htmem
    rw [hnext]
    exact hbelow t htmem
  · intro d hd k hk
    rw [hpd] at hd
    rw [hnext]
    rw [List.mem_append, List.mem_singleton] at hd
    cases hd with
    | inl hd0 => exact hrefs d hd0 k hk
    | inr hd0 =>
      subst hd0
      simp at hk
  · rw [UniqueTaskIds, hta]
    exact huniq
  · intro t htmem
    rw [hta] at htmem
    have hpend : pendiente db2 t = pendiente db t := by
      rw [pendiente, pendiente, hdisc]
    rw [hpend]
    exact htask t htmem

theorem inv_init : Inv initDB := by
  refine ⟨?_, ?_, ?_, ?_⟩
  · intro t ht
    cases ht
  · intro d hd
    cases hd
  · exact List.Pairwise.nil
  · intro t ht
    cases ht

theorem inv_step (db db2 : DB) (h : Step db db2) (hinv : Inv db) : Inv db2 := by
  cases h with
  | intake cliente cantidad usuario hq =>
    exact inv_intake db cliente cantidad usuario hinv
  | create _ pid cliente cantidad pasillo prioridad tid h =>
    exact inv_createTask db db2 pid cliente cantidad pasillo prioridad tid h hinv
  | delete _ taskId tid h =>
    exact inv_deleteTask db db2 taskId tid h hinv
  | claim _ taskId usuario tid h =>
    obtain ⟨hmov, hpe, hpd, hnext, hnd, hta⟩ :=
      claimTask_ok db db2 taskId usuario tid h
    refine inv_of_lock_update db db2 _ ?_ ?_ ?_ hpd hnext hta hinv <;>
      intro t <;> dsimp only <;> split <;> rfl
  | release _ taskId usuario tid h =>
    obtain ⟨hmov, hpe, hpd, hnext, hnd, hta⟩ :=
      releaseTask_ok db db2 taskId usuario tid h
    refine inv_of_lock_update db db2 _ ?_ ?_ ?_ hpd hnext hta hinv <;>
      intro t <;> dsimp only <;> split <;> rfl
  | descontar _ taskId cantidad usuario did h =>
    exact inv_descontarPallet db db2 taskId cantidad usuario did h hinv
  | descontarDirecto _ pid cantidad did h =>
    exact inv_descontarPalletDirecto db db2 pid cantidad did h hinv

theorem inv_reachable (db : DB) (h : Reachable db) : Inv db := by
  induction h with
  | init => exact inv_init
  | step db db2 _ hstep ih => exact inv_step db db2 hstep ih

/-! Concrete states used by witnesses and counterexamples: an intake of 100
for client x, then a task for 40 of it. -/

def dbW1 : DB := (recordIntake initDB "x" 100 "u").1

def dbW2 : DB := (createTask dbW1 1 "x" 40 "p" "n").1

theorem dbW1_step : Step initDB dbW1 :=
  Step.intake initDB "x" 100 "u" (by norm_num)

theorem dbW2_step : Step dbW1 dbW2 := by
  refine Step.create dbW1 dbW2 1 "x" 40 "p" "n" 1 ?_
  rfl

theorem dbW2_reachable : Reachable dbW2 :=
  Reachable.step dbW1 dbW2
    (Reachable.step initDB dbW1 Reachable.init dbW1_step) dbW2_step

/-- C5: in every reachable state, every task's pending amount (requested
quantity minus the sum of the discounts referencing it) is nonnegative, and
a task whose pending amount is zero has lifecycle state Completada. -/
theorem pendiente_invariant_reachable (db : DB) (h : Reachable db) :
    ∀ t ∈ db.tareasDescuento,
      0 ≤ pendiente db t ∧
      (pendiente db t = 0 → t.estado = Estado.Completada) :=
  (inv_reachable db h).2.2.2

/-- Witness for C5 at the reachable state dbW2 and its only task. -/
theorem pendiente_invariant_reachable_witness :
    0 ≤ pendiente dbW2
        { id := 1
          palletEntradaID := 1
          cliente := "x"
          cantidadSolicitada := 40
          pasillo := "p"
          prioridad := "n"
          estado := Estado.Pendiente
          estadoProceso := EstadoProceso.Libre
          usuarioProcesando := none } ∧
      (pendiente dbW2
        { id := 1
          palletEntradaID := 1
          cliente := "x"
          cantidadSolicitada := 40
          pasillo := "p"
          prioridad := "n"
          estado := Estado.Pendiente
          estadoProceso := EstadoProceso.Libre
          usuarioProcesando := none } = 0 →
        Estado.Pendiente = Estado.Completada) :=
  pendiente_invariant_reachable dbW2 dbW2_reachable
    { id := 1
      palletEntradaID := 1
      cliente := "x"
      cantidadSolicitada := 40
      pasillo := "p"
      prioridad := "n"
      estado := Estado.Pendiente
      estadoProceso := EstadoProceso.Libre
      usuarioProcesando := none }
    (List.Mem.head _)

/-- C9: when the requested quantity exceeds the availability the code
computes for the lot, createTask fails with InsufficientAvailability and
the state is returned unchanged: no task row, no movement row, and the
availability of the lot is the same after the call. -/
theorem createTask_insufficient_rollback (db : DB) (pid : Nat)
    (cliente : String) (cantidad : Int) (pasillo prioridad : String)
    (pe : PalletEntrada)
    (hf : db.palletsEntrada.find? (fun p => p.id == pid) = some pe)
    (hgt : cantidad > pe.cantidad - cantidadEnTareas db pid) :
    createTask db pid cliente cantidad pasillo prioridad =
      (db, Except.error ApiErr.insufficientAvailability) ∧
    (createTask db pid cliente cantidad pasillo prioridad).1.tareasDescuento
      = db.tareasDescuento ∧
    (createTask db pid cliente cantidad pasillo prioridad).1.movimientos
      = db.movimientos ∧
    pe.cantidad - cantidadEnTareas
        (createTask db pid cliente cantidad pasillo prioridad).1 pid
      = pe.cantidad - cantidadEnTareas db pid := by
  have heq : createTask db pid cliente cantidad pasillo prioridad =
      (db, Except.error ApiErr.insufficientAvailability) := by
    unfold createTask
    rw [hf]
    dsimp only
    rw [if_pos (Or.inr hgt)]
  rw [heq]
  exact ⟨rfl, rfl, rfl, rfl⟩

/-- Witness for C9: a task for 40 exists against the 100-lot, so requesting
61 exceeds the remaining 60 and is rejected with the state unchanged. -/
theorem createTask_insufficient_rollback_witness :
    createTask dbW2 1 "x" 61 "p" "n" =
      (dbW2, Except.error ApiErr.insufficientAvailability) :=
  (createTask_insufficient_rollback dbW2 1 "x" 61 "p" "n"
    { id := 1, cliente := "x", cantidad := 100 } rfl (by norm_num [cantidadEnTareas, dbW2, dbW1, createTask, recordIntake, initDB])).1

/-- C6: a claim on a task EnProceso held by actorA, made by a different
actorB, fails with Conflict and returns the state unchanged, so the lock
state, the holder and the movement log are untouched. -/
theorem claim_conflict_spec (db : DB) (taskId : Nat)
    (actorA actorB : String) (tarea : TareaDescuento)
    (hf : db.tareasDescuento.find? (fun t => t.id == taskId) = some tarea)
    (hproc : tarea.estadoProceso = EstadoProceso.EnProceso)
    (husr : tarea.usuarioProcesando = some actorA)
    (hne : actorB ≠ actorA) :
    claimTask db taskId actorB = (db, Except.error ApiErr.conflict) := by
  unfold claimTask
  rw [hf]
  dsimp only
  refine if_pos ⟨hproc, ?_⟩
  simp only [husr, ne_eq, Option.some.injEq]
  exact fun h => hne h.symm

/-- The state after ana claims the task of dbW2. -/
def dbW4 : DB := (claimTask dbW2 1 "ana").1

/-- Witness for C6: bob cannot claim the task ana holds in dbW4. -/
theorem claim_conflict_spec_witness :
    claimTask dbW4 1 "bob" = (dbW4, Except.error ApiErr.conflict) :=
  claim_conflict_spec dbW4 1 "ana" "bob"
    { id := 1
      palletEntradaID := 1
      cliente := "x"
      cantidadSolicitada := 40
      pasillo := "p"
      prioridad := "n"
      estado := Estado.Pendiente
      estadoProceso := EstadoProceso.EnProceso
      usuarioProcesando := some "ana" }
    rfl rfl rfl (by decide)

/-- A database whose only task is Cancelada with a free lock; used to
witness that claiming never inspects the lifecycle state. -/
def dbC10 : DB :=
  { palletsEntrada := [{ id := 1, cliente := "x", cantidad := 100 }]
    tareasDescuento := [{ id := 1
                          palletEntradaID := 1
                          cliente := "x"
                          cantidadSolicitada := 40
                          pasillo := "p"
                          prioridad := "n"
                          estado := Estado.Cancelada
                          estadoProceso := EstadoProceso.Libre
                          usuarioProcesando := none }]
    palletsDescontados := []
    movimientos := []
    nextPalletEntradaId := 2
    nextTareaId := 2
    nextDescontadoId := 1 }

/-- C10: a claim on an existing task whose lock is Libre succeeds and makes
the caller the holder, whatever the lifecycle state is: the theorem has no
hypothesis on tarea.estado, and the updated row keeps its lifecycle state
unchanged. -/
theorem claim_ignores_lifecycle_spec (db : DB) (taskId : Nat)
    (usuario : String) (tarea : TareaDescuento)
    (huniq : UniqueTaskIds db)
    (hf : db.tareasDescuento.find? (fun t => t.id == taskId) = some tarea)
    (hlib : tarea.estadoProceso = EstadoProceso.Libre) :
    (claimTask db taskId usuario).2 = Except.ok taskId ∧
    ∀ t ∈ (claimTask db taskId usuario).1.tareasDescuento, t.id = taskId →
      t.estadoProceso = EstadoProceso.EnProceso ∧
      t.usuarioProcesando = some usuario ∧
      t.estado = tarea.estado := by
  have hmem : tarea ∈ db.tareasDescuento := List.mem_of_find?_eq_some hf
  have htid : tarea.id = taskId := by
    have := List.find?_some hf
    simpa using this
  have hne : ¬(tarea.estadoProceso = EstadoProceso.EnProceso ∧
      tarea.usuarioProcesando ≠ some usuario) := by
    rw [hlib]
    rintro ⟨hcontra, -⟩
    cases hcontra
  have heq : claimTask db taskId usuario =
      ({ db with
          tareasDescuento := db.tareasDescuento.map (fun t =>
            if t.id == taskId &&
                (t.estadoProceso == EstadoProceso.Libre ||
                 t.estadoProceso == EstadoProceso.EnProceso) then
              { t with estadoProceso := EstadoProceso.EnProceso
                       usuarioProcesando := some usuario }
            else t)
          movimientos := db.movimientos ++
            ((db.tareasDescuento.map (fun t =>
              if t.id == taskId &&
                  (t.estadoProceso == EstadoProceso.Libre ||
                   t.estadoProceso == EstadoProceso.EnProceso) then
                { t with estadoProceso := EstadoProceso.EnProceso
                         usuarioProcesando := some usuario }
              else t)).filter (fun t => t.id == taskId)).map (fun t =>
              { tipoMovimiento := TipoMovimiento.TOMA_POSESION
                palletEntradaID := none
                tareaDescuentoID := some t.id
                palletsDescontadosID := none
                cliente := t.cliente
                cantidad := t.cantidadSolicitada
                pasillo := some t.pasillo
                usuario := usuario }) },
       Except.ok taskId) := by
    unfold claimTask
    rw [hf]
    dsimp only
    rw [if_neg hne, if_pos hlib]
  rw [heq]
  refine ⟨rfl, ?_⟩
  intro t htmem htidq
  simp only [List.mem_map] at htmem
  obtain ⟨t0, ht0, rfl⟩ := htmem
  have hlock : (t0.estadoProceso == EstadoProceso.Libre ||
      t0.estadoProceso == EstadoProceso.EnProceso) = true := by
    cases t0.estadoProceso <;> rfl
  by_cases ht0id : t0.id = taskId
  · rw [if_pos (by simp [ht0id, hlock])] at htidq ⊢
    have ht0eq : t0 = tarea :=
      eq_of_mem_of_pairwise_ne huniq ht0 hmem (by rw [ht0id, htid])
    subst ht0eq
    exact ⟨rfl, rfl, rfl⟩
  · rw [if_neg (by simp [ht0id])] at htidq
    exact absurd htidq ht0id

/-- Witness for C10: the Cancelada task of dbC10 can still be claimed. -/
theorem claim_ignores_lifecycle_spec_witness :
    (claimTask dbC10 1 "eve").2 = Except.ok 1 ∧
    ∀ t ∈ (claimTask dbC10 1 "eve").1.tareasDescuento, t.id = 1 →
      t.estadoProceso = EstadoProceso.EnProceso ∧
      t.usuarioProcesando = some "eve" ∧
      t.estado = Estado.Cancelada :=
  claim_ignores_lifecycle_spec dbC10 1 "eve"
    { id := 1
      palletEntradaID := 1
      cliente := "x"
      cantidadSolicitada := 40
      pasillo := "p"
      prioridad := "n"
      estado := Estado.Cancelada
      estadoProceso := EstadoProceso.Libre
      usuarioProcesando := none }
    (List.pairwise_singleton _ _) rfl rfl

theorem filter_map_unique_task (l : List TareaDescuento)
    (f : TareaDescuento → TareaDescuento)
    (hid : ∀ t, (f t).id = t.id)
    (hpw : l.Pairwise (fun a b => a.id ≠ b.id))
    (tarea : TareaDescuento) (taskId : Nat)
    (hmem : tarea ∈ l) (hidt : tarea.id = taskId) :
    (l.map f).filter (fun t => t.id == taskId) = [f tarea] := by
  induction l with
  | nil => cases hmem
  | cons x xs ih =>
    rw [List.pairwise_cons] at hpw
    rw [List.map_cons, List.filter_cons]
    cases hmem with
    | head =>
      have hcond : ((f tarea).id == taskId) = true := by
        rw [beq_iff_eq, hid, hidt]
      rw [if_pos hcond]
      have hrest : (xs.map f).filter (fun t => t.id == taskId) = [] := by
        rw [List.filter_eq_nil_iff]
        intro t htmem
        rw [List.mem_map] at htmem
        obtain ⟨t0, ht0, rfl⟩ := htmem
        simp only [beq_iff_eq, hid]
        rw [← hidt]
        exact fun hcontra => hpw.1 t0 ht0 hcontra.symm
      rw [hrest]
    | tail _ hmem2 =>
      have hcond : ((f x).id == taskId) = false := by
        simp only [beq_eq_false_iff_ne, ne_eq, hid]
        rw [← hidt]
        exact hpw.1 tarea hmem2
      rw [if_neg (by simp [hcond])]
      exact ih hpw.2 hmem2

/-- C7: claiming is idempotent for the holding actor.  A second claim by
the current holder succeeds and returns the database entirely unchanged (in
particular no extra TOMA_POSESION movement), while a claim on a Libre lock
appends exactly one TOMA_POSESION movement for the task. -/
theorem claim_idempotent_spec (db : DB) (taskId : Nat) (usuario : String)
    (tarea : TareaDescuento) (huniq : UniqueTaskIds db)
    (hf : db.tareasDescuento.find? (fun t => t.id == taskId) = some tarea) :
    (tarea.estadoProceso = EstadoProceso.EnProceso →
      tarea.usuarioProcesando = some usuario →
      claimTask db taskId usuario = (db, Except.ok taskId)) ∧
    (tarea.estadoProceso = EstadoProceso.Libre →
      (claimTask db taskId usuario).2 = Except.ok taskId ∧
      (claimTask db taskId usuario).1.movimientos = db.movimientos ++
        [{ tipoMovimiento := TipoMovimiento.TOMA_POSESION
           palletEntradaID := none
           tareaDescuentoID := some tarea.id
           palletsDescontadosID := none
           cliente := tarea.cliente
           cantidad := tarea.cantidadSolicitada
           pasillo := some tarea.pasillo
           usuario := usuario }]) := by
  have hmem : tarea ∈ db.tareasDescuento := List.mem_of_find?_eq_some hf
  have htid : tarea.id = taskId := by
    have := List.find?_some hf
    simpa using this
  constructor
  · intro hEn husr
    have hne : ¬(tarea.estadoProceso = EstadoProceso.EnProceso ∧
        tarea.usuarioProcesando ≠ some usuario) := by
      rintro ⟨-, hcon⟩
      exact hcon husr
    have hmapid : db.tareasDescuento.map (fun t =>
        if t.id == taskId &&
            (t.estadoProceso == EstadoProceso.Libre ||
             t.estadoProceso == EstadoProceso.EnProceso) then
          { t with estadoProceso := EstadoProceso.EnProceso
                   usuarioProcesando := some usuario }
        else t) = db.tareasDescuento := by
      have hpt : ∀ t ∈ db.tareasDescuento, (
          if t.id == taskId &&
              (t.estadoProceso == EstadoProceso.Libre ||
               t.estadoProceso == EstadoProceso.EnProceso) then
            { t with estadoProceso := EstadoProceso.EnProceso
                     usuarioProcesando := some usuario }
          else t) = t := by
        intro t ht
        split
        · rename_i hcondt
          simp only [Bool.and_eq_true, beq_iff_eq] at hcondt
          have hteq : t = tarea :=
            eq_of_mem_of_pairwise_ne huniq ht hmem (by rw [hcondt.1, htid])
          subst hteq
          cases t
          simp_all
        · rfl
      calc db.tareasDescuento.map _ = db.tareasDescuento.map id :=
            List.map_congr_left hpt
        _ = db.tareasDescuento := List.map_id _
    unfold claimTask
    rw [hf]
    dsimp only
    rw [if_neg hne, if_neg (by simp [hEn]), hmapid, List.append_nil]
  · intro hlib
    have hne : ¬(tarea.estadoProceso = EstadoProceso.EnProceso ∧
        tarea.usuarioProcesando ≠ some usuario) := by
      rw [hlib]
      rintro ⟨hcontra, -⟩
      cases hcontra
    have heq : claimTask db taskId usuario =
        ({ db with
            tareasDescuento := db.tareasDescuento.map (fun t =>
              if t.id == taskId &&
                  (t.estadoProceso == EstadoProceso.Libre ||
                   t.estadoProceso == EstadoProceso.EnProceso) then
                { t with estadoProceso := EstadoProceso.EnProceso
                         usuarioProcesando := some usuario }
              else t)
            movimientos := db.movimientos ++
              ((db.tareasDescuento.map (fun t =>
                if t.id == taskId &&
                    (t.estadoProceso == EstadoProceso.Libre ||
                     t.estadoProceso == EstadoProceso.EnProceso) then
                  { t with estadoProceso := EstadoProceso.EnProceso
                           usuarioProcesando := some usuario }
                else t)).filter (fun t => t.id == taskId)).map (fun t =>
                { tipoMovimiento := TipoMovimiento.TOMA_POSESION
                  palletEntradaID := none
                  tareaDescuentoID := some t.id
                  palletsDescontadosID := none
                  cliente := t.cliente
                  cantidad := t.cantidadSolicitada
                  pasillo := some t.pasillo
                  usuario := usuario }) },
         Except.ok taskId) := by
      unfold claimTask
      rw [hf]
      dsimp only
      rw [if_neg hne, if_pos hlib]
    have hfil : (db.tareasDescuento.map (fun t =>
        if t.id == taskId &&
            (t.estadoProceso == EstadoProceso.Libre ||
             t.estadoProceso == EstadoProceso.EnProceso) then
          { t with estadoProceso := EstadoProceso.EnProceso
                   usuarioProcesando := some usuario }
        else t)).filter (fun t => t.id == taskId) =
        [(fun t =>
          if t.id == taskId &&
              (t.estadoProceso == EstadoProceso.Libre ||
               t.estadoProceso == EstadoProceso.EnProceso) then
            { t with estadoProceso := EstadoProceso.EnProceso
                     usuarioProcesando := some usuario }
          else t) tarea] := by
      refine filter_map_unique_task db.tareasDescuento _ ?_ huniq tarea taskId hmem htid
      intro t
      split <;> rfl
    have hftarea : (fun t =>
        if t.id == taskId &&
            (t.estadoProceso == EstadoProceso.Libre ||
             t.estadoProceso == EstadoProceso.EnProceso) then
          { t with estadoProceso := EstadoProceso.EnProceso
                   usuarioProcesando := some usuario }
        else t) tarea =
        { tarea with estadoProceso := EstadoProceso.EnProceso
                     usuarioProcesando := some usuario } := by
      refine if_pos ?_
      simp [htid, hlib]
    rw [heq]
    refine ⟨rfl, ?_⟩
    simp only [hfil, hftarea, List.map_cons, List.map_nil]

/-- Witness for C7: ana re-claims the task ana already holds in dbW4 and
the database is returned unchanged. -/
theorem claim_idempotent_spec_witness :
    claimTask dbW4 1 "ana" = (dbW4, Except.ok 1) :=
  (claim_idempotent_spec dbW4 1 "ana"
    { id := 1
      palletEntradaID := 1
      cliente := "x"
      cantidadSolicitada := 40
      pasillo := "p"
      prioridad := "n"
      estado := Estado.Pendiente
      estadoProceso := EstadoProceso.EnProceso
      usuarioProcesando := some "ana" }
    (List.pairwise_singleton _ _) rfl).1 rfl rfl

/-- C4: with the task EnProceso and held by the caller (and Pendiente, as
the spec requires for applyToTask), the discount is rejected with
InvalidQuantity iff the quantity is nonpositive or exceeds the pending
amount; on success the discount row and a DESCUENTO movement referencing
task and discount are appended, the lock is released with the holder
cleared, the task becomes Completada when the quantity equals the pending
amount and stays Pendiente when it is smaller. -/
theorem descontarPallet_spec (db : DB) (taskId : Nat) (cantidad : Int)
    (usuario : String) (tarea : TareaDescuento)
    (huniq : UniqueTaskIds db)
    (hf : db.tareasDescuento.find? (fun t => t.id == taskId) = some tarea)
    (hproc : tarea.estadoProceso = EstadoProceso.EnProceso)
    (husr : tarea.usuarioProcesando = some usuario)
    (hpendstate : tarea.estado = Estado.Pendiente) :
    ((cantidad ≤ 0 ∨
        cantidad > tarea.cantidadSolicitada - descontadoEnTarea db taskId) →
      descontarPallet db taskId cantidad usuario =
        (db, Except.error ApiErr.invalidQuantity)) ∧
    (0 < cantidad →
      cantidad ≤ tarea.cantidadSolicitada - descontadoEnTarea db taskId →
      (descontarPallet db taskId cantidad usuario).2 =
        Except.ok db.nextDescontadoId ∧
      (descontarPallet db taskId cantidad usuario).1.palletsDescontados =
        db.palletsDescontados ++
          [{ id := db.nextDescontadoId
             tareaDescuentoID := some taskId
             cliente := tarea.cliente
             cantidadDescontada := cantidad
             palletEntradaID := none }] ∧
      (descontarPallet db taskId cantidad usuario).1.movimientos =
        db.movimientos ++
          [{ tipoMovimiento := TipoMovimiento.DESCUENTO
             palletEntradaID := none
             tareaDescuentoID := some taskId
             palletsDescontadosID := some db.nextDescontadoId
             cliente := tarea.cliente
             cantidad := cantidad
             pasillo := some tarea.pasillo
             usuario := usuario }] ∧
      (∀ t ∈ (descontarPallet db taskId cantidad usuario).1.tareasDescuento,
        t.id = taskId →
          t.estadoProceso = EstadoProceso.Libre ∧
          t.usuarioProcesando = none ∧
          (cantidad = tarea.cantidadSolicitada - descontadoEnTarea db taskId →
            t.estado = Estado.Completada) ∧
          (cantidad < tarea.cantidadSolicitada - descontadoEnTarea db taskId →
            t.estado = Estado.Pendiente))) := by
  have hmem : tarea ∈ db.tareasDescuento := List.mem_of_find?_eq_some hf
  have htid : tarea.id = taskId := by
    have := List.find?_some hf
    simpa using this
  constructor
  · intro hbad
    unfold descontarPallet
    rw [hf]
    dsimp only
    rw [if_neg (by simp [hproc]), if_neg (by simp [husr]), if_pos hbad]
  · intro hpos hle
    have hok : descontarPallet db taskId cantidad usuario =
        ({ db with
            palletsDescontados := db.palletsDescontados ++
              [{ id := db.nextDescontadoId
                 tareaDescuentoID := some taskId
                 cliente := tarea.cliente
                 cantidadDescontada := cantidad
                 palletEntradaID := none }]
            tareasDescuento :=
              if cantidad =
                  tarea.cantidadSolicitada - descontadoEnTarea db taskId then
                db.tareasDescuento.map (fun t =>
                  if t.id == taskId then
                    { t with estado := Estado.Completada
                             estadoProceso := EstadoProceso.Libre
                             usuarioProcesando := none }
                  else t)
              else
                db.tareasDescuento.map (fun t =>
                  if t.id == taskId &&
                      t.estadoProceso == EstadoProceso.EnProceso then
                    { t with estadoProceso := EstadoProceso.Libre
                             usuarioProcesando := none }
                  else t)
            movimientos := db.movimientos ++
              [{ tipoMovimiento := TipoMovimiento.DESCUENTO
                 palletEntradaID := none
                 tareaDescuentoID := some taskId
                 palletsDescontadosID := some db.nextDescontadoId
                 cliente := tarea.cliente
                 cantidad := cantidad
                 pasillo := some tarea.pasillo
                 usuario := usuario }]
            nextDescontadoId := db.nextDescontadoId + 1 },
         Except.ok db.nextDescontadoId) := by
      unfold descontarPallet
      rw [hf]
      dsimp only
      rw [if_neg (by simp [hproc]), if_neg (by simp [husr]),
        if_neg (by push_neg; exact ⟨hpos, hle⟩)]
    rw [hok]
    refine ⟨rfl, rfl, rfl, ?_⟩
    intro t htmem htq
    dsimp only at htmem
    split at htmem
    · rename_i hfull
      rw [List.mem_map] at htmem
      obtain ⟨t0, ht0, rfl⟩ := htmem
      have ht0id : t0.id = taskId := by
        by_cases hcase : t0.id = taskId
        · exact hcase
        · rw [if_neg (by simpa using hcase)] at htq
          exact absurd htq hcase
      rw [if_pos (by simpa using ht0id)] at htq ⊢
      refine ⟨rfl, rfl, fun _ => rfl, fun hlt => ?_⟩
      exact absurd hfull (by omega)
    · rename_i hpart
      rw [List.mem_map] at htmem
      obtain ⟨t0, ht0, rfl⟩ := htmem
      have ht0id : t0.id = taskId := by
        by_cases hcase : t0.id = taskId
        · exact hcase
        · rw [if_neg (by simp [hcase])] at htq
          exact absurd htq hcase
      have ht0eq : t0 = tarea :=
        eq_of_mem_of_pairwise_ne huniq ht0 hmem (by rw [ht0id, htid])
      subst ht0eq
      rw [if_pos (by simp [ht0id, hproc])] at htq ⊢
      refine ⟨rfl, rfl, fun hfull => absurd hfull hpart, fun _ => ?_⟩
      exact hpendstate

/-- Witness for C4: a partial discount of 15 against the task of 40 ana
holds in dbW4 succeeds with the first discount id. -/
theorem descontarPallet_spec_witness :
    (descontarPallet dbW4 1 15 "ana").2 = Except.ok 1 :=
  (((descontarPallet_spec dbW4 1 15 "ana"
    { id := 1
      palletEntradaID := 1
      cliente := "x"
      cantidadSolicitada := 40
      pasillo := "p"
      prioridad := "n"
      estado := Estado.Pendiente
      estadoProceso := EstadoProceso.EnProceso
      usuarioProcesando := some "ana" }
    (List.pairwise_singleton _ _) rfl rfl rfl rfl).2 (by norm_num)
    (by decide))).1

/-- Sum of the requested quantities of the non-Cancelada tasks of a lot.
Modelled from the spec: the spec states that createTask checks the quantity
against intake minus existing tasks' requested quantities regardless of
task state except Cancelled; this definition follows the spec words so it
can be compared against cantidadEnTareas, the sum the code actually uses,
which has no state filter. -/
def cantidadEnTareasNoCanceladas (db : DB) (pid : Nat) : Int :=
  ((db.tareasDescuento.filter (fun t =>
      t.palletEntradaID == pid && !(t.estado == Estado.Cancelada))).map
    (fun t => t.cantidadSolicitada)).sum

/-- A lot of 100 with one Cancelada task for 60 of it. -/
def dbC1 : DB :=
  { palletsEntrada := [{ id := 1, cliente := "x", cantidad := 100 }]
    tareasDescuento := [{ id := 1
                          palletEntradaID := 1
                          cliente := "x"
                          cantidadSolicitada := 60
                          pasillo := "p"
                          prioridad := "n"
                          estado := Estado.Cancelada
                          estadoProceso := EstadoProceso.Libre
                          usuarioProcesando := none }]
    palletsDescontados := []
    movimientos := []
    nextPalletEntradaId := 2
    nextTareaId := 2
    nextDescontadoId := 1 }

/-- Counterexample to C1: in dbC1 the quantity 50 is positive and within
the spec availability 100 - 0 = 100 (the only task is Cancelada, which the
spec says is excluded), yet the code rejects it with
InsufficientAvailability because its sum has no state filter and computes
availability 100 - 60 = 40. -/
theorem createTask_excludes_cancelled_counterexample :
    ¬((50 : Int) ≤ 0 ∨
      (50 : Int) > 100 - cantidadEnTareasNoCanceladas dbC1 1) ∧
    (createTask dbC1 1 "x" 50 "p" "n").2 =
      Except.error ApiErr.insufficientAvailability := by
  constructor
  · decide
  · rfl

/-- C1 amended: the availability createTask checks against is the lot
intake minus the requested quantities of all existing tasks on the lot,
regardless of state, Cancelada included; the call is rejected with
InsufficientAvailability exactly when the quantity is nonpositive or
exceeds this value. -/
theorem createTask_availability_spec (db : DB) (pid : Nat)
    (cliente : String) (cantidad : Int) (pasillo prioridad : String)
    (pe : PalletEntrada)
    (hf : db.palletsEntrada.find? (fun p => p.id == pid) = some pe) :
    (createTask db pid cliente cantidad pasillo prioridad).2 =
        Except.error ApiErr.insufficientAvailability ↔
      (cantidad ≤ 0 ∨ cantidad > pe.cantidad -
        ((db.tareasDescuento.filter (fun t => t.palletEntradaID == pid)).map
          (fun t => t.cantidadSolicitada)).sum) := by
  unfold createTask
  rw [hf]
  dsimp only
  constructor
  · intro hres
    by_contra hcon
    rw [if_neg (by exact hcon)] at hres
    exact nomatch hres
  · intro hcond
    rw [if_pos (by exact hcond)]

/-- Witness for C1: in dbW2 (lot of 100 with one task for 40) a request of
61 is rejected exactly because 61 exceeds 100 - 40. -/
theorem createTask_availability_spec_witness :
    ((createTask dbW2 1 "x" 61 "p" "n").2 =
        Except.error ApiErr.insufficientAvailability ↔
      ((61 : Int) ≤ 0 ∨ (61 : Int) > 100 -
        ((dbW2.tareasDescuento.filter (fun t => t.palletEntradaID == 1)).map
          (fun t => t.cantidadSolicitada)).sum)) :=
  createTask_availability_spec dbW2 1 "x" 61 "p" "n"
    { id := 1, cliente := "x", cantidad := 100 } rfl

/-- C8: for an existing lot, the direct discount is rejected with
InvalidQuantity exactly when the quantity is nonpositive or exceeds the lot
total minus the direct discounts (null task reference) against the lot
minus the requested quantities of its Pendiente tasks; on success a
discount row with null task reference and a DESCUENTO_DIRECTO movement are
appended. -/
theorem descontarPalletDirecto_spec (db : DB) (pid : Nat) (cantidad : Int)
    (pallet : PalletEntrada)
    (hf : db.palletsEntrada.find? (fun p => p.id == pid) = some pallet) :
    ((descontarPalletDirecto db pid cantidad).2 =
        Except.error ApiErr.invalidQuantity ↔
      (cantidad ≤ 0 ∨ cantidad > pallet.cantidad -
        ((db.palletsDescontados.filter (fun d =>
            d.tareaDescuentoID == (none : Option Nat) &&
            d.palletEntradaID == some pid)).map
          (fun d => d.cantidadDescontada)).sum -
        ((db.tareasDescuento.filter (fun t =>
            t.palletEntradaID == pid && t.estado == Estado.Pendiente)).map
          (fun t => t.cantidadSolicitada)).sum)) ∧
    (0 < cantidad →
      cantidad ≤ pallet.cantidad - descontadoDirectoDePallet db pid
        - enTareasPendientes db pid →
      descontarPalletDirecto db pid cantidad =
        ({ db with
            palletsDescontados := db.palletsDescontados ++
              [{ id := db.nextDescontadoId
                 tareaDescuentoID := none
                 cliente := pallet.cliente
                 cantidadDescontada := cantidad
                 palletEntradaID := some pid }]
            movimientos := db.movimientos ++
              [{ tipoMovimiento := TipoMovimiento.DESCUENTO_DIRECTO
                 palletEntradaID := some pid
                 tareaDescuentoID := none
                 palletsDescontadosID := some db.nextDescontadoId
                 cliente := pallet.cliente
                 cantidad := cantidad
                 pasillo := none
                 usuario := "Sistema" }]
            nextDescontadoId := db.nextDescontadoId + 1 },
         Except.ok db.nextDescontadoId)) := by
  constructor
  · unfold descontarPalletDirecto
    rw [hf]
    dsimp only
    constructor
    · intro hres
      by_contra hcon
      rw [if_neg (by exact hcon)] at hres
      exact nomatch hres
    · intro hcond
      rw [if_pos (by exact hcond)]
  · intro hpos hle
    unfold descontarPalletDirecto
    rw [hf]
    dsimp only
    rw [if_neg (by push_neg; exact ⟨hpos, hle⟩)]

/-- Witness for C8 at dbW2: lot total 100, no direct discounts, one
Pendiente task of 40, so 30 is accepted and appended. -/
theorem descontarPalletDirecto_spec_witness :
    descontarPalletDirecto dbW2 1 30 =
      ({ dbW2 with
          palletsDescontados := dbW2.palletsDescontados ++
            [{ id := 1
               tareaDescuentoID := none
               cliente := "x"
               cantidadDescontada := 30
               palletEntradaID := some 1 }]
          movimientos := dbW2.movimientos ++
            [{ tipoMovimiento := TipoMovimiento.DESCUENTO_DIRECTO
               palletEntradaID := some 1
               tareaDescuentoID := none
               palletsDescontadosID := some 1
               cliente := "x"
               cantidad := 30
               pasillo := none
               usuario := "Sistema" }]
          nextDescontadoId := 2 },
       Except.ok 1) :=
  (descontarPalletDirecto_spec dbW2 1 30
    { id := 1, cliente := "x", cantidad := 100 } rfl).2
    (by norm_num) (by decide)

/-- Counterexample to C2: deleting the Pendiente task of dbW2 succeeds, but
instead of keeping the task row with state Cancelled and appending a
movement, the task row is gone and the task's CREACION_TAREA movement was
deleted (the log shrinks from 2 to 1 entries). -/
theorem cancel_preserves_records_counterexample :
    (deleteTask dbW2 1).2 = Except.ok 1 ∧
    (deleteTask dbW2 1).1.tareasDescuento = [] ∧
    dbW2.movimientos.length = 2 ∧
    (deleteTask dbW2 1).1.movimientos.length = 1 :=
  ⟨rfl, rfl, rfl, rfl⟩

/-- C2 amended: the cancel/delete operation fails with NotFound when the
task is absent and with InvalidState when it is already Completada or
Cancelada, changing nothing; on a Pendiente task it deletes the task row,
its discount rows, and the movements referencing it, appending no
movement. -/
theorem deleteTask_spec (db : DB) (taskId : Nat) :
    (db.tareasDescuento.find? (fun t => t.id == taskId) = none →
      deleteTask db taskId = (db, Except.error ApiErr.notFound)) ∧
    ∀ tarea, db.tareasDescuento.find? (fun t => t.id == taskId) = some tarea →
      ((tarea.estado = Estado.Completada ∨ tarea.estado = Estado.Cancelada) →
        deleteTask db taskId = (db, Except.error ApiErr.invalidState)) ∧
      (tarea.estado = Estado.Pendiente →
        deleteTask db taskId =
          ({ db with
              movimientos := db.movimientos.filter
                (fun m => !(m.tareaDescuentoID == some taskId))
              palletsDescontados := db.palletsDescontados.filter
                (fun d => !(d.tareaDescuentoID == some taskId))
              tareasDescuento := db.tareasDescuento.filter
                (fun t => !(t.id == taskId)) },
           Except.ok taskId)) := by
  constructor
  · intro hnone
    unfold deleteTask
    rw [hnone]
  · intro tarea hf
    constructor
    · intro hfinal
      unfold deleteTask
      rw [hf]
      dsimp only
      rw [if_pos hfinal]
    · intro hpend
      unfold deleteTask
      rw [hf]
      dsimp only
      rw [if_neg (by rw [hpend]; rintro (hc | hc) <;> exact nomatch hc)]

/-- Witness for C2 amended: deleting the Pendiente task of dbW2. -/
theorem deleteTask_spec_witness :
    (deleteTask dbW2 1).2 = Except.ok 1 :=
  congrArg Prod.snd (((deleteTask_spec dbW2 1).2
    { id := 1
      palletEntradaID := 1
      cliente := "x"
      cantidadSolicitada := 40
      pasillo := "p"
      prioridad := "n"
      estado := Estado.Pendiente
      estadoProceso := EstadoProceso.Libre
      usuarioProcesando := none }
    rfl).2 rfl)

/-- The state after deleting the task of dbW2. -/
def dbW3 : DB := (deleteTask dbW2 1).1

/-- Counterexample to C3: the successful task-deletion transition from the
reachable state dbW2 removes movement rows, so the movement log is not
append-only under the system's own operations. -/
theorem movement_log_append_only_counterexample :
    Reachable dbW2 ∧ Step dbW2 dbW3 ∧
    ¬∃ l, dbW3.movimientos = dbW2.movimientos ++ l := by
  refine ⟨dbW2_reachable, Step.delete dbW2 dbW3 1 1 rfl, ?_⟩
  rintro ⟨l, hl⟩
  have h1 : dbW3.movimientos.length = 1 := rfl
  rw [hl, List.length_append] at h1
  have h2 : dbW2.movimientos.length = 2 := rfl
  rw [h2] at h1
  omega

/-- C3 amended: every transition of the system either only appends movement
rows, or is the task-deletion operation, which removes exactly the
movements referencing one task id; no transition mutates a movement row in
place. -/
theorem movement_log_step_spec (db db2 : DB) (h : Step db db2) :
    (∃ l, db2.movimientos = db.movimientos ++ l) ∨
    (∃ k, db2.movimientos =
      db.movimientos.filter (fun m => !(m.tareaDescuentoID == some k))) := by
  cases h with
  | intake cliente cantidad usuario hq =>
    exact Or.inl ⟨_, rfl⟩
  | create _ pid cliente cantidad pasillo prioridad tid h =>
    obtain ⟨pe, -, -, -, -, hdb2⟩ :=
      createTask_ok db db2 pid cliente cantidad pasillo prioridad tid h
    exact Or.inl ⟨_, by rw [hdb2]⟩
  | delete _ taskId tid h =>
    obtain ⟨tarea, -, -, -, -, hdb2⟩ := deleteTask_ok db db2 taskId tid h
    exact Or.inr ⟨taskId, by rw [hdb2]⟩
  | claim _ taskId usuario tid h =>
    exact Or.inl (claimTask_ok db db2 taskId usuario tid h).1
  | release _ taskId usuario tid h =>
    exact Or.inl (releaseTask_ok db db2 taskId usuario tid h).1
  | descontar _ taskId cantidad usuario did h =>
    obtain ⟨tarea, -, -, -, -, -, -, -, -, hmov, -, -⟩ :=
      descontarPallet_ok db db2 taskId cantidad usuario did h
    exact Or.inl ⟨_, hmov⟩
  | descontarDirecto _ pid cantidad did h =>
    obtain ⟨pallet, -, -, -, -, hdb2⟩ :=
      descontarPalletDirecto_ok db db2 pid cantidad did h
    exact Or.inl ⟨_, by rw [hdb2]⟩

/-- Witness for C3 amended: the intake transition into dbW1 appends. -/
theorem movement_log_step_spec_witness :
    (∃ l, dbW1.movimientos = initDB.movimientos ++ l) ∨
    (∃ k, dbW1.movimientos =
      initDB.movimientos.filter (fun m => !(m.tareaDescuentoID == some k))) :=
  movement_log_step_spec initDB dbW1 dbW1_step

end Recepcion
